import Mathlib

/-!
Shallow embedding of the cppregpattern registry library.

Two registry variants exist in the repository:

* the modern, policy-parameterised `registry::Registry` of
  `include/cppregpattern/registry.h`, a static map from keys to
  `std::function<Func>` with three missing-key policies
  (`exception`, `default_construct`, `optional`);
* the legacy `registry::Registry` of `registry.h`, a factory keyed by
  `std::string` whose `Create` returns a raw pointer and writes a
  diagnostic to `std::cerr` when the class name is not registered.

The registration table (`std::unordered_map`) is embedded as a function
`K → Option F`; stateful member functions are embedded in state-passing
style, returning the updated table.  C++ exceptions are embedded with
`Except`, the C++ null pointer with `Option.none`, and writes to
`std::cerr` as an explicit list of emitted strings.
-/

namespace Registry

/-- The registration table `map_t`, `std::unordered_map<Key, F, …>`,
embedded as a finite-support lookup function (a key maps to at most one
value, as in `unordered_map`). -/
def map_t (K F : Type) : Type := K → Option F

/-- Insert-or-assign `m[k] = v`: `unordered_map::operator[]` followed by assignment,
i.e. insert-or-assign of `v` at key `k`. -/
def map_assign {K F : Type} [DecidableEq K] (m : map_t K F) (k : K) (v : F) :
    map_t K F :=
  fun k' => if k' = k then some v else m k'

/-- Lookup `m.find(k)`: returns the mapped value when present (`end()` is
embedded as `none`).  A const operation: it never mutates the map. -/
def map_find {K F : Type} (m : map_t K F) (k : K) : Option F := m k

/-- Counting lookup `m.count(k)`: number of elements with key `k`; for `unordered_map`
this is `0` or `1`. -/
def map_count {K F : Type} (m : map_t K F) (k : K) : Nat :=
  match m k with
  | some _ => 1
  | none => 0

/-- Removal `m.erase(k)`: removes the mapping for `k` when present; a no-op on
an absent key. -/
def map_erase {K F : Type} [DecidableEq K] (m : map_t K F) (k : K) :
    map_t K F :=
  fun k' => if k' = k then none else m k'

/-- C++ exceptions thrown by the operations the registry uses:
`std::out_of_range` from `unordered_map::at` (the spec's `KeyNotFound`)
and `std::bad_function_call` from invoking an empty `std::function`. -/
inductive cpp_error : Type
  | out_of_range : cpp_error
  | bad_function_call : cpp_error
deriving DecidableEq

/-- Checked lookup `m.at(k)`; throws `std::out_of_range` when no
element with key `k` exists.  A const operation. -/
def map_at {K F : Type} (m : map_t K F) (k : K) : Except cpp_error F :=
  match m k with
  | some v => Except.ok v
  | none => Except.error cpp_error.out_of_range

/-- The `MissingKeyPolicy` enumeration of
`include/cppregpattern/registry.h`. -/
inductive MissingKeyPolicy : Type
  | exception : MissingKeyPolicy
  | default_construct : MissingKeyPolicy
  | optional : MissingKeyPolicy
deriving DecidableEq

/-- The stored callable slot `func_t = std::function<R(A)>`.  The
argument pack `Args...` is embedded as a single tuple type `A`.  The
registry's macros and `Register` calls always store a callable with a
target, so slots are embedded as total functions. -/
def func_t (A R : Type) : Type := A → R

/-- Registration `Registry::Register(key, func)`: `funcs()[key] = func; return true;`
— inserts or overwrites the slot for `key` and reports success. -/
def Register {K A R : Type} [DecidableEq K]
    (st : map_t K (func_t A R)) (key : K) (func : func_t A R) :
    Bool × map_t K (func_t A R) :=
  (true, map_assign st key func)

/-- Membership test `Registry::IsRegistered(key)`: `funcs().count(key) == 1u`. -/
def IsRegistered {K A R : Type} (st : map_t K (func_t A R)) (key : K) :
    Bool :=
  map_count st key == 1

/-- Removal of a key, `Registry::Unregister(key)`: `funcs().erase(key)` (returns `void`;
the embedding returns the updated table). -/
def Unregister {K A R : Type} [DecidableEq K]
    (st : map_t K (func_t A R)) (key : K) : map_t K (func_t A R) :=
  map_erase st key

/-- Dispatch under the exception policy, `Dispatcher<exception>::Dispatch`:
`return funcs().at(key)(args...)`.  `at` throws `std::out_of_range`
when `key` is absent; otherwise the stored callable's result is
returned. -/
def Dispatch_exception {K A R : Type} (st : map_t K (func_t A R))
    (key : K) (a : A) : Except cpp_error R :=
  match map_at st key with
  | Except.ok f => Except.ok (f a)
  | Except.error e => Except.error e

/-- Dispatch under the default-construct policy, `Dispatcher<default_construct>::Dispatch`:
`auto it = funcs().find(key); if (it == funcs().end()) return ret_t();
return it->second(args...)`.  The value-initialised `ret_t()` is
embedded as `default`. -/
def Dispatch_default_construct {K A R : Type} [Inhabited R]
    (st : map_t K (func_t A R)) (key : K) (a : A) : R :=
  match map_find st key with
  | none => default
  | some f => f a

/-- Dispatch under the optional policy, `Dispatcher<optional>::Dispatch`:
`auto it = funcs().find(key); if (it == funcs().end()) return
std::nullopt; return it->second(args...)`. -/
def Dispatch_optional {K A R : Type} (st : map_t K (func_t A R))
    (key : K) (a : A) : Option R :=
  match map_find st key with
  | none => none
  | some f => some (f a)

end Registry

namespace LegacyRegistry

/-- The legacy callable slot `ctor_t = std::function<T*(Pack...)>` of the legacy `registry.h`.
The outer `Option` distinguishes an empty `std::function` (the
default-constructed state, `none`) from one with a target; invoking a
target yields a `T*`, embedded as `Option T` (`none` = null). -/
def ctor_t (T A : Type) : Type := Option (A → Option T)

/-- The legacy table `map_t = std::unordered_map<std::string, ctor_t>`. -/
def map_t (T A : Type) : Type := Registry.map_t String (ctor_t T A)

/-- Invocation of a `std::function`: an empty function throws
`std::bad_function_call`, otherwise the target runs. -/
def ctor_call {T A : Type} (c : ctor_t T A) (a : A) :
    Except Registry.cpp_error (Option T) :=
  match c with
  | some f => Except.ok (f a)
  | none => Except.error Registry.cpp_error.bad_function_call

/-- Subscript lookup `unordered_map::operator[]` on the legacy table: returns the mapped
value when present; when absent it default-inserts a value-initialised
mapped value (for `ctor_t`, an empty `std::function`) and returns that.
Unlike `find`/`at`, this lookup can mutate the map, so the embedding
returns the possibly-updated table alongside the value. -/
def map_bracket {T A : Type} (m : map_t T A) (class_name : String) :
    ctor_t T A × map_t T A :=
  match m class_name with
  | some c => (c, m)
  | none => (none, Registry.map_assign m class_name none)

/-- Registration in the legacy registry, `Registry::Register(class_name, ctor)`:
`ctors()[class_name] = ctor; return true;`.  The legacy macros always
register a lambda, i.e. a `std::function` with a target. -/
def Register {T A : Type} (st : map_t T A) (class_name : String)
    (ctor : A → Option T) : Bool × map_t T A :=
  (true, Registry.map_assign st class_name (some ctor))

/-- Creation by class name, `Registry::Create(class_name, pack...)`:
```
if (ctors().count(class_name) == 1)
  return ctors()[class_name](std::forward<Args>(pack)...);
std::cerr << "Class " << class_name << " not registered." << std::endl;
return nullptr;
```
The result triple: the returned pointer (or thrown exception), the
lines written to `std::cerr`, and the table after the call. -/
def Create {T A : Type} (st : map_t T A) (class_name : String) (a : A) :
    (Except Registry.cpp_error (Option T) × List String) × map_t T A :=
  if Registry.map_count st class_name == 1 then
    let vm := map_bracket st class_name
    ((ctor_call vm.1 a, []), vm.2)
  else
    ((Except.ok none,
      ["Class " ++ class_name ++ " not registered.\n"]), st)

end LegacyRegistry

open Registry

/-!
Concrete tables used by the witnesses, built from the spec's test
scenarios through the registry's own operations.
-/

/-- The empty table of an exception-policy registry of signature
`() -> string` (the spec's `KeyNotFound` scenario, before any
registration). -/
def exception_scenario_table : map_t String (func_t Unit String) :=
  fun _ => none

/-- The default-construct scenario table of signature `() -> int`:
identifiers `"A" -> () -> 1` and `"B" -> () -> 2` registered into an
initially empty table. -/
def default_scenario_table : map_t String (func_t Unit Int) :=
  (Register (Register (fun _ => none) "A" (fun _ => 1)).2 "B" (fun _ => 2)).2

/-- The optional scenario table: `"Y" -> () -> 42` registered into an
initially empty table. -/
def optional_scenario_table : map_t String (func_t Unit Int) :=
  (Register (fun _ => none) "Y" (fun _ => 42)).2

/-- C1: registering `f` under `k` and immediately dispatching `k` with
arguments `a` returns exactly `f a`, under each of the three
missing-key policies (wrapped as `ok` / plain / `some`, the respective
result types). -/
theorem register_then_dispatch_round_trip {K A R : Type} [DecidableEq K]
    [Inhabited R] (st : map_t K (func_t A R)) (k : K) (f : func_t A R)
    (a : A) :
    Dispatch_exception (Register st k f).2 k a = Except.ok (f a) ∧
    Dispatch_default_construct (Register st k f).2 k a = f a ∧
    Dispatch_optional (Register st k f).2 k a = some (f a) := by
  refine ⟨?_, ?_, ?_⟩ <;>
    simp [Dispatch_exception, Dispatch_default_construct, Dispatch_optional,
      Register, map_at, map_find, map_assign]

/-- C2: after `Register k f1` then `Register k f2`, the table maps `k`
to `f2` (so `f1` is no longer reachable through `k`), both
registrations report success, and dispatching `k` under any policy
yields `f2 a`. -/
theorem register_last_write_wins {K A R : Type} [DecidableEq K]
    [Inhabited R] (st : map_t K (func_t A R)) (k : K)
    (f1 f2 : func_t A R) (a : A) :
    (Register (Register st k f1).2 k f2).1 = true ∧
    map_find (Register (Register st k f1).2 k f2).2 k = some f2 ∧
    Dispatch_exception (Register (Register st k f1).2 k f2).2 k a
      = Except.ok (f2 a) ∧
    Dispatch_default_construct (Register (Register st k f1).2 k f2).2 k a
      = f2 a ∧
    Dispatch_optional (Register (Register st k f1).2 k f2).2 k a
      = some (f2 a) := by
  refine ⟨rfl, ?_, ?_, ?_, ?_⟩ <;>
    simp [Dispatch_exception, Dispatch_default_construct, Dispatch_optional,
      Register, map_at, map_find, map_assign]

/-- C3: under the exception policy, `Dispatch` throws the
`std::out_of_range` of `unordered_map::at` (the spec's `KeyNotFound`)
exactly when `k` has no mapping; under the default-construct and
optional policies a dispatch of an absent key returns a value
(`default`, resp. `none`) — their result types carry no exception at
all, so this error is never raised there. -/
theorem dispatch_exception_iff_missing {K A R : Type} [Inhabited R]
    (st : map_t K (func_t A R)) (k : K) (a : A) :
    (Dispatch_exception st k a = Except.error cpp_error.out_of_range ↔
      map_find st k = none) ∧
    (map_find st k = none → Dispatch_default_construct st k a = default) ∧
    (map_find st k = none → Dispatch_optional st k a = none) := by
  refine ⟨?_, ?_, ?_⟩ <;>
    cases hm : st k <;>
      simp [Dispatch_exception, Dispatch_default_construct,
        Dispatch_optional, map_at, map_find, hm]

/-- Witness for C3, the spec's scenario: in an exception-policy table
of signature `() -> string` with no registrations, dispatching `"X"`
raises `KeyNotFound` (`std::out_of_range`); a default-construct /
optional dispatch of the same absent key returns a value instead. -/
theorem dispatch_exception_iff_missing_witness :
    Dispatch_exception exception_scenario_table "X" ()
      = Except.error cpp_error.out_of_range ∧
    Dispatch_default_construct exception_scenario_table "X" () = "" ∧
    Dispatch_optional exception_scenario_table "X" () = none :=
  ⟨(dispatch_exception_iff_missing exception_scenario_table "X" ()).1.mpr rfl,
   (dispatch_exception_iff_missing exception_scenario_table "X" ()).2.1 rfl,
   (dispatch_exception_iff_missing exception_scenario_table "X" ()).2.2 rfl⟩

/-- C5: under the default-construct policy, dispatching a key with no
mapping returns the value-initialised (default-constructed) value of
the return type, independent of the arguments and of every callable
stored under other keys. -/
theorem dispatch_default_construct_absent {K A R : Type} [Inhabited R]
    (st : map_t K (func_t A R)) (k : K) (a : A)
    (h : map_find st k = none) :
    Dispatch_default_construct st k a = default := by
  simp [Dispatch_default_construct, h]

/-- Witness for C5, the spec's scenario: with `"A" -> () -> 1` and
`"B" -> () -> 2` registered in a default-construct table of signature
`() -> int`, `"C"` is absent and `dispatch("C")` returns the `int`
zero value. -/
theorem dispatch_default_construct_absent_witness :
    map_find default_scenario_table "C" = none ∧
    Dispatch_default_construct default_scenario_table "C" () = (0 : Int) :=
  ⟨rfl, dispatch_default_construct_absent default_scenario_table "C" () rfl⟩

/-- C6: under the optional policy, dispatching a key with no mapping
returns the absent optional (`std::nullopt`), and dispatching a key
mapped to `f` returns the present optional wrapping `f a`. -/
theorem dispatch_optional_present_absent {K A R : Type}
    (st : map_t K (func_t A R)) (k : K) (a : A) :
    (map_find st k = none → Dispatch_optional st k a = none) ∧
    ∀ f : func_t A R, map_find st k = some f →
      Dispatch_optional st k a = some (f a) := by
  constructor
  · intro h
    simp [Dispatch_optional, h]
  · intro f h
    simp [Dispatch_optional, h]

/-- Witness for C6, the spec's scenario: with `"Y" -> () -> 42`
registered in an optional-policy table, `dispatch("Y")` is
present(42) and `dispatch("Z")` is absent. -/
theorem dispatch_optional_present_absent_witness :
    Dispatch_optional optional_scenario_table "Y" () = some (42 : Int) ∧
    Dispatch_optional optional_scenario_table "Z" () = none :=
  ⟨(dispatch_optional_present_absent optional_scenario_table "Y" ()).2
      (fun _ => 42) rfl,
   (dispatch_optional_present_absent optional_scenario_table "Z" ()).1 rfl⟩

/-- C7: after `Unregister k`, the key is reported unregistered and a
dispatch of `k` follows the configured missing-key policy's
absent-key behaviour (throws `std::out_of_range`, returns `default`,
returns `none`, respectively); in general `IsRegistered` is `true`
exactly when a mapping currently exists. -/
theorem unregister_is_true_removal {K A R : Type} [DecidableEq K]
    [Inhabited R] (st : map_t K (func_t A R)) (k : K) (a : A) :
    IsRegistered (Unregister st k) k = false ∧
    Dispatch_exception (Unregister st k) k a
      = Except.error cpp_error.out_of_range ∧
    Dispatch_default_construct (Unregister st k) k a = default ∧
    Dispatch_optional (Unregister st k) k a = none ∧
    (IsRegistered st k = true ↔ ∃ f, map_find st k = some f) := by
  refine ⟨?_, ?_, ?_, ?_, ?_⟩ <;>
    cases hm : st k <;>
      simp [IsRegistered, Unregister, Dispatch_exception,
        Dispatch_default_construct, Dispatch_optional, map_count, map_at,
        map_find, map_erase, hm]

/-- C8: `Register` always reports success (`true`) and raises nothing,
and `Unregister` of a key with no current mapping leaves the table
unchanged (raising nothing: both operations are total in the
embedding, with no exception in their result types). -/
theorem register_unregister_no_failure {K A R : Type} [DecidableEq K]
    (st : map_t K (func_t A R)) (k k' : K) (f : func_t A R)
    (h : map_find st k' = none) :
    (Register st k f).1 = true ∧ Unregister st k' = st := by
  refine ⟨rfl, funext fun k'' => ?_⟩
  by_cases hk : k'' = k'
  · subst hk
    simpa [Unregister, map_erase, map_find] using h.symm
  · simp [Unregister, map_erase, hk]

/-- Witness for C8: in the optional scenario table (only `"Y"`
registered), registering `"X"` reports success and unregistering the
absent `"Z"` leaves the table unchanged. -/
theorem register_unregister_no_failure_witness :
    map_find optional_scenario_table "Z" = none ∧
    (Register optional_scenario_table "X" (fun _ => (7 : Int))).1 = true ∧
    Unregister optional_scenario_table "Z" = optional_scenario_table :=
  ⟨rfl,
   (register_unregister_no_failure optional_scenario_table "X" "Z"
      (fun _ => 7) rfl).1,
   (register_unregister_no_failure optional_scenario_table "X" "Z"
      (fun _ => 7) rfl).2⟩

/-- The legacy counterpart of an empty table (no class registered). -/
def empty_legacy_table : LegacyRegistry.map_t Unit Unit :=
  fun _ => none

/-- A legacy table with one registered class, `"Derived01"`, whose
constructor returns a fresh object (a non-null pointer). -/
def legacy_scenario_table : LegacyRegistry.map_t Unit Unit :=
  (LegacyRegistry.Register (fun _ => none) "Derived01"
    (fun _ => some ())).2

/-- Counterexample to C4 as stated: the legacy `Registry::Create`,
called on the unregistered class name `"X"`, writes the diagnostic
`Class X not registered.` to `std::cerr` — an internal logging side
effect on a missing key — so it is not the case that no
dispatch/create operation of any registry variant logs. -/
theorem create_missing_key_logs_to_cerr :
    (LegacyRegistry.Create empty_legacy_table "X" ()).1.2
        = ["Class X not registered.\n"] ∧
    (LegacyRegistry.Create empty_legacy_table "X" ()).1.2 ≠ [] := by
  refine ⟨rfl, ?_⟩
  decide

/-- C4 as amended: every failure surfaces to the immediate caller as
the operation's result with no retry and no recovery — the legacy
`Create` returns the null pointer to its caller on a missing key and
leaves the table untouched — but, unlike the modern `Dispatch`
(whose embedding emits no output at all), the legacy `Create` does
write exactly one diagnostic line to `std::cerr` on a missing key,
and writes nothing when the key is present. -/
theorem create_error_surfaces_to_caller {T A : Type}
    (st : LegacyRegistry.map_t T A) (class_name : String) (a : A) :
    (Registry.map_count st class_name ≠ 1 →
      (LegacyRegistry.Create st class_name a).1.1 = Except.ok none ∧
      (LegacyRegistry.Create st class_name a).1.2
        = ["Class " ++ class_name ++ " not registered.\n"] ∧
      (LegacyRegistry.Create st class_name a).2 = st) ∧
    (Registry.map_count st class_name = 1 →
      (LegacyRegistry.Create st class_name a).1.2 = []) := by
  constructor
  · intro h
    have hb : (Registry.map_count st class_name == 1) = false := by
      simpa using h
    refine ⟨?_, ?_, ?_⟩ <;> simp [LegacyRegistry.Create, hb]
  · intro h
    cases hm : st class_name with
    | none =>
        exact absurd h (by simp [Registry.map_count, hm])
    | some c =>
        simp [LegacyRegistry.Create, LegacyRegistry.map_bracket,
          Registry.map_count, hm]

/-- Witness for the amended C4: on the empty legacy table, creating
`"X"` returns null to the caller, logs the one diagnostic line and
leaves the table unchanged; on a table holding `"Derived01"`, creating
`"Derived01"` logs nothing. -/
theorem create_error_surfaces_to_caller_witness :
    Registry.map_count empty_legacy_table "X" ≠ 1 ∧
    (LegacyRegistry.Create empty_legacy_table "X" ()).1.1
      = Except.ok none ∧
    (LegacyRegistry.Create empty_legacy_table "X" ()).2
      = empty_legacy_table ∧
    Registry.map_count legacy_scenario_table "Derived01" = 1 ∧
    (LegacyRegistry.Create legacy_scenario_table "Derived01" ()).1.2
      = [] :=
  ⟨by decide,
   ((create_error_surfaces_to_caller empty_legacy_table "X" ()).1
      (by decide)).1,
   ((create_error_surfaces_to_caller empty_legacy_table "X" ()).1
      (by decide)).2.2,
   rfl,
   (create_error_surfaces_to_caller legacy_scenario_table "Derived01" ()).2
      rfl⟩

/-- C10: dispatch and create are read-only on the registration table.
The modern dispatchers call only the const lookups `at`/`find` and so
are embedded as pure functions of the table; the legacy `Create`
contains the one lookup that can insert — `operator[]` — but reaches
it only under the `count == 1` guard, so for every table, class name
(registered or not) and arguments the table after `Create` equals the
table before: looking up an absent key never inserts an entry. -/
theorem create_leaves_table_unchanged {T A : Type}
    (st : LegacyRegistry.map_t T A) (class_name : String) (a : A) :
    (LegacyRegistry.Create st class_name a).2 = st := by
  cases hm : st class_name with
  | none =>
      simp [LegacyRegistry.Create, Registry.map_count, hm]
  | some c =>
      simp [LegacyRegistry.Create, LegacyRegistry.map_bracket,
        Registry.map_count, hm]
